import Mathlib

/-!
Verification of the Class / Object / Property / Signal framework of
way-cooler, as instantiated by the concrete button entity in
src/awesome/button.rs.  The button-specific payload and accessors
(ButtonState, get_button, set_button, the class layout registered by
init, the allocator) are embedded directly from the source file.  The
generic framework (Class registry, property dispatcher, signal registry,
index-miss handler) lives in class.rs / object.rs / property.rs, which
are not part of the available sources; those operations are modelled
from the specification, as marked on each definition.
-/

namespace WayCooler

/-- Dynamically typed values of the scripting layer.  Integer and Number
are the two numeric shapes of the caller (rlua Value.Integer is i64,
Value.Number is f64; the Number payload is modelled as an integer since
no verified claim depends on fractional values).  Tables are modelled
only in the shape the button code uses them: a list of modifier names.
The constructor opaque carries every other caller value (functions,
userdata, threads) whose inner structure the framework never inspects. -/
inductive Value where
| nil : Value
| boolean (b : Bool) : Value
| integer (n : ℤ) : Value
| number (n : ℤ) : Value
| str (s : String) : Value
| table (mods : List String) : Value
| opaqueVal (tag : ℕ) : Value
deriving DecidableEq, Repr

/-- ButtonState from button.rs: a hardware button code (xcb_button_t,
an unsigned 8-bit integer, kept as a natural number below 256) and a
modifier set (KeyMod, a set of modifier names; modelled as the list of
names since the KeyMod bitmask conversion lives outside the sources). -/
structure ButtonState where
  button : ℕ
  modifiers : List String
deriving DecidableEq, Repr

/-- Default for ButtonState from button.rs: button code
xcb_button_t.default, that is 0, and the empty modifier set. -/
def ButtonState.default : ButtonState := ⟨0, []⟩

/-- Truncating cast of an i64 to an u8, the semantics of the Rust
expression num as u8 on the Integer branch of set_button: the low eight
bits, two-complement wrapping for negative input. -/
def i64AsU8 (n : ℤ) : ℕ := (n % 256).toNat

/-- Saturating cast of an f64 to an u8, the semantics of the Rust
expression num as u8 on the Number branch of set_button (float to int
casts saturate at the bounds of the target type). -/
def f64AsU8 (n : ℤ) : ℕ := (min (max n 0) 255).toNat

/-- Setter host function set_button from button.rs: a Number or Integer
value is cast to the u8 button code; any other value stores
xcb_button_t.default, that is 0.  It never fails a type check. -/
def set_button (b : ButtonState) (v : Value) : Option ButtonState :=
  match v with
  | .number n => some { b with button := f64AsU8 n }
  | .integer n => some { b with button := i64AsU8 n }
  | _ => some { b with button := 0 }

/-- Getter host function get_button from button.rs: returns the stored
button code as an Integer value. -/
def get_button (b : ButtonState) : Value := .integer b.button

/-- Setter host function set_modifiers from button.rs: expects a table
of modifier names and stores the converted modifier set; any other
shape fails the expected-type check (the rlua argument conversion to
Table rejects it). -/
def set_modifiers (b : ButtonState) (v : Value) : Option ButtonState :=
  match v with
  | .table mods => some { b with modifiers := mods }
  | _ => none

/-- Getter host function get_modifiers from button.rs: returns the
stored modifier set converted back to a table of names. -/
def get_modifiers (b : ButtonState) : Value := .table b.modifiers

/-- Modelled from the spec: the Property Descriptor record of
property.rs (not among the sources): a name, an optional setter, an
optional getter and an optional default_setter, the fallback invoked
when an assigned value fails the expected-type check of the setter.
Field order follows the Property.new call sites in button.rs. -/
structure PropertyDesc where
  name : String
  setter : Option (ButtonState → Value → Option ButtonState)
  getter : Option (ButtonState → Value)
  default_setter : Option (ButtonState → Value → Option ButtonState)

/-- Modelled from the spec: an index-miss handler, the class-wide
fallback function (Object, key) → Value invoked when a property name
is not among the declared properties. -/
def MissHandler : Type := ButtonState → String → Value

/-- Deep-embedded callback bodies for signal callbacks, covering the
actions a caller-supplied callback performs in the sources and the
specification scenarios: write a property of the receiving object with
a constant or with one of the extra emitted arguments, log an
observable tag, and re-enter the signal registry of the receiving
object by connecting or disconnecting while an emission runs. -/
inductive Cb where
| nop : Cb
| seq (a b : Cb) : Cb
| setProp (key : String) (v : Value) : Cb
| setPropArg (key : String) (i : ℕ) : Cb
| logTag (t : ℕ) : Cb
| connectSig (name : String) (cb : Cb) : Cb
| disconnectSig (name : String) : Cb
deriving DecidableEq, Repr

/-- Modelled from the spec: an Object of object.rs — opaque data, an
own signal registry (ordered map from signal name to the ordered
callback list) and a non-owning reference to its Class, held here by
class name. -/
structure Obj where
  data : ButtonState
  signals : List (String × List Cb)
  klass : String

/-- Modelled from the spec: the process state the framework touches —
the objects alive (an object handle is an index into this list), the
class registry filled by save_class (class name to declared property
list, immutable once saved), the mutable index-miss handler slot of
each class (keyed by class name, shared by all instances), a counter
of index-miss handler invocations and a trace of logged callback tags
(both instrumentation making invocations observable in theorems). -/
structure LuaState where
  objs : List Obj
  classes : List (String × List PropertyDesc)
  handlers : List (String × MissHandler)
  missCount : ℕ
  trace : List ℕ

/-- Typed failure values of the error surface in §7 of the spec. -/
inductive Err where
| unknownObject : Err
| unknownClass : Err
| unknownProperty : Err
| readOnlyProperty : Err
| writeOnlyProperty : Err
| typeMismatch : Err
deriving DecidableEq, Repr

def getObj (s : LuaState) (i : ℕ) : Option Obj := s.objs[i]?

def setObj (s : LuaState) (i : ℕ) (o : Obj) : LuaState :=
  { s with objs := s.objs.set i o }

/-- Replaces the object data at handle i, leaving everything else of
the state untouched (a setter writes back through the object table). -/
def setObjData (s : LuaState) (i : ℕ) (d : ButtonState) : LuaState :=
  match getObj s i with
  | some o => setObj s i { o with data := d }
  | none => s

/-- Appends a callback to the ordered list under a signal name in a
registry, creating the list when absent. -/
def sigConnect : List (String × List Cb) → String → Cb →
    List (String × List Cb)
| [], name, cb => [(name, [cb])]
| (n, cbs) :: rest, name, cb =>
  if n = name then (n, cbs ++ [cb]) :: rest
  else (n, cbs) :: sigConnect rest name cb

/-- Removes every callback registered under a signal name. -/
def sigDisconnect (sigs : List (String × List Cb)) (name : String) :
    List (String × List Cb) :=
  sigs.filter (fun p => p.1 ≠ name)

/-- The callback list currently registered under a name; the empty
list when the name has no entry. -/
def sigLookup (sigs : List (String × List Cb)) (name : String) : List Cb :=
  (sigs.lookup name).getD []

/-- Modelled from the spec: connect_signal of object.rs, scoped to one
object — appends the callback to the ordered list for the name,
creating the list if absent, no uniqueness constraint. -/
def connect_signal (s : LuaState) (i : ℕ) (name : String) (cb : Cb) : LuaState :=
  match getObj s i with
  | some o => setObj s i { o with signals := sigConnect o.signals name cb }
  | none => s

/-- Modelled from the spec: disconnect_signal of object.rs — removes
all callbacks registered under the name for this object. -/
def disconnect_signal (s : LuaState) (i : ℕ) (name : String) : LuaState :=
  match getObj s i with
  | some o => setObj s i { o with signals := sigDisconnect o.signals name }
  | none => s

/-- Modelled from the spec: set_index_miss_handler of class.rs —
replaces the class-wide fallback, effective immediately for all
existing and future instances of the class. -/
def set_index_miss_handler (s : LuaState) (cname : String) (h : MissHandler) :
    LuaState :=
  { s with handlers := (cname, h) :: s.handlers }

/-- Modelled from the spec: the Dispatcher on a property write of key k
with value v (§4.2): resolve k among the declared properties of the
class of the object; if a setter is present, attempt to apply v; when v
fails the expected-type check of the setter and a default_setter is
declared, invoke the default_setter instead of failing, otherwise fail
with TypeMismatchError; a missing setter fails with
ReadOnlyPropertyError; an undeclared key fails with
UnknownPropertyError (the spec fixes write-miss to always fail). -/
def propertySet (s : LuaState) (i : ℕ) (k : String) (v : Value) :
    Except Err LuaState :=
  match getObj s i with
  | none => .error .unknownObject
  | some o =>
    match s.classes.lookup o.klass with
    | none => .error .unknownClass
    | some props =>
      match props.find? (fun p => p.name == k) with
      | none => .error .unknownProperty
      | some p =>
        match p.setter with
        | none => .error .readOnlyProperty
        | some f =>
          match f o.data v with
          | some d => .ok (setObjData s i d)
          | none =>
            match p.default_setter with
            | none => .error .typeMismatch
            | some g =>
              match g o.data v with
              | some d => .ok (setObjData s i d)
              | none => .error .typeMismatch

/-- Modelled from the spec: the Dispatcher on a property read of key k
(§4.2): resolve k among the declared properties of the class of the
object; if found and a getter is present, return its value (the state
is untouched); if found without getter, fail with
WriteOnlyPropertyError; if not found, invoke the index-miss handler of
the class when one is set (counted by missCount) and return its result,
otherwise fail with UnknownPropertyError. -/
def propertyGet (s : LuaState) (i : ℕ) (k : String) :
    Except Err (LuaState × Value) :=
  match getObj s i with
  | none => .error .unknownObject
  | some o =>
    match s.classes.lookup o.klass with
    | none => .error .unknownClass
    | some props =>
      match props.find? (fun p => p.name == k) with
      | some p =>
        match p.getter with
        | some g => .ok (s, g o.data)
        | none => .error .writeOnlyProperty
      | none =>
        match s.handlers.lookup o.klass with
        | some h => .ok ({ s with missCount := s.missCount + 1 }, h o.data k)
        | none => .error .unknownProperty

/-- Runs one callback body with receiver object i and the extra emitted
arguments args: property writes go through the Dispatcher (a failure
propagates, aborting the embedding call like a raised error in the
scripting layer), a missing extra argument reads as nil, and the
re-entrant actions mutate the signal registry of the receiver. -/
def runCb : Cb → ℕ → List Value → LuaState → Except Err LuaState
| .nop, _, _, s => .ok s
| .seq a b, i, args, s =>
  match runCb a i args s with
  | .ok s₁ => runCb b i args s₁
  | .error e => .error e
| .setProp k v, i, _, s => propertySet s i k v
| .setPropArg k j, i, args, s => propertySet s i k (args.getD j .nil)
| .logTag t, _, _, s => .ok { s with trace := s.trace ++ [t] }
| .connectSig n cb, i, _, s => .ok (connect_signal s i n cb)
| .disconnectSig n, i, _, s => .ok (disconnect_signal s i n)

/-- The callbacks an emit_signal call on object i under the given name
will invoke: exactly the ordered list registered under that name on
that object at the start of the call. -/
def invokedCbs (s : LuaState) (i : ℕ) (name : String) : List Cb :=
  match getObj s i with
  | some o => sigLookup o.signals name
  | none => []

/-- Runs a list of callbacks left to right on the state, stopping at
the first failure (an error raised by a callback propagates out of the
emission). -/
def runCbs : List Cb → ℕ → List Value → LuaState → Except Err LuaState
| [], _, _, s => .ok s
| c :: rest, i, args, s =>
  match runCb c i args s with
  | .ok s₁ => runCbs rest i args s₁
  | .error e => .error e

/-- Modelled from the spec: emit_signal of object.rs — invokes every
callback currently registered under the name, in registration order,
each receiving the object and the extra arguments; the list is
snapshot at the start of the call, so connections and disconnections
made by a running callback do not change the set invoked in this pass;
an empty or unset list makes the emission a silent no-op. -/
def emit_signal (s : LuaState) (i : ℕ) (name : String) (args : List Value) :
    Except Err LuaState :=
  runCbs (invokedCbs s i name) i args s

/-- The property list registered for the button class by init in
button.rs: exactly the two properties button (setter set_button, getter
get_button, default_setter set_button) and modifiers (setter
set_modifiers, getter get_modifiers, default_setter set_modifiers), in
that order. -/
def buttonProperties : List PropertyDesc :=
  [⟨"button", some set_button, some get_button, some set_button⟩,
   ⟨"modifiers", some set_modifiers, some get_modifiers, some set_modifiers⟩]

/-- Allocator from button.rs: makes a new button object with default
data, an empty signal registry and a class reference to the button
class, and returns its handle. -/
def allocator (s : LuaState) : LuaState × ℕ :=
  ({ s with objs := s.objs ++ [⟨ButtonState.default, [], "button"⟩] },
   s.objs.length)

/-- The function new from button.rs, the call handler invoked when the
button class is used as a factory: it simply calls the allocator. -/
def newButton (s : LuaState) : LuaState × ℕ := allocator s

/-- The function init from button.rs: builds the button class with its
two properties and saves it in the class registry under the name
button (save_class). -/
def init (s : LuaState) : LuaState :=
  { s with classes := ("button", buttonProperties) :: s.classes }

/-- The empty process state: no objects, no classes, no handlers. -/
def emptyState : LuaState := ⟨[], [], [], 0, []⟩

/-- The state right after button.init, as every test of button.rs
starts. -/
def initState : LuaState := init emptyState

/-- Replaces the whole signal registry of the object at handle i,
leaving everything else of the state untouched; used to state that an
operation does not depend on the registry of some other object. -/
def updObjSignals (s : LuaState) (i : ℕ) (r : List (String × List Cb)) :
    LuaState :=
  match getObj s i with
  | some o => setObj s i { o with signals := r }
  | none => s

/-- The button class has been saved in the class registry under the
name button and resolves to its two declared properties, as established
by init. -/
def buttonReady (s : LuaState) : Prop :=
  s.classes.lookup "button" = some buttonProperties

/-- The two value shapes the button setter casts to a button code; on
every other shape set_button falls through to the catch-all branch and
stores the default code 0. -/
def isNumOrInt : Value → Bool
| .number _ => true
| .integer _ => true
| _ => false

/-- A state with the button class initialised and one freshly
allocated button object at handle 0. -/
def oneButton : LuaState := (allocator initState).1

/-- A state with the button class initialised and two freshly
allocated button objects at handles 0 and 1. -/
def twoButtons : LuaState := (allocator oneButton).1

/-- The index-miss handler of the button_index_property test: it
ignores the object and the key and returns the constant 5. -/
def hitHandler : MissHandler := fun _ _ => .integer 5

/-- The two-button state after the constant-5 index-miss handler has
been installed on the button class; both objects were instantiated
before the handler was set. -/
def handlerState : LuaState := set_index_miss_handler twoButtons "button" hitHandler

/-- A property whose setter rejects every value and whose
default_setter stores the fixed data 7; exercises the
coercion-or-default path of the Dispatcher. -/
def fallbackProp : PropertyDesc :=
  ⟨"x", some fun _ _ => none, none, some fun _ _ => some ⟨7, []⟩⟩

/-- A state with one object of a class c declaring only fallbackProp. -/
def fallbackState : LuaState :=
  ⟨[⟨ButtonState.default, [], "c"⟩], [("c", [fallbackProp])], [], 0, []⟩

/-- A callback that connects a further callback under the signal name
test while it runs, then logs tag 1. -/
def snapCb : Cb := .seq (.connectSig "test" (.logTag 9)) (.logTag 1)

/-- One fresh button with snapCb and a tag-2 logger connected, in that
order, under the signal name test. -/
def snapState : LuaState :=
  connect_signal (connect_signal oneButton 0 "test" snapCb) 0 "test" (.logTag 2)

/-- A callback that disconnects the signal name test while it runs,
then logs tag 3. -/
def snapCbD : Cb := .seq (.disconnectSig "test") (.logTag 3)

/-- One fresh button with snapCbD and a tag-4 logger connected, in
that order, under the signal name test. -/
def snapStateD : LuaState :=
  connect_signal (connect_signal oneButton 0 "test" snapCbD) 0 "test" (.logTag 4)

/-! ### Frame lemmas: which parts of the state each operation touches -/

theorem setObj_classes (s : LuaState) (i : ℕ) (o : Obj) :
    (setObj s i o).classes = s.classes := rfl

theorem setObjData_classes (s : LuaState) (i : ℕ) (d : ButtonState) :
    (setObjData s i d).classes = s.classes := by
  unfold setObjData; cases getObj s i <;> rfl

theorem setObjData_handlers (s : LuaState) (i : ℕ) (d : ButtonState) :
    (setObjData s i d).handlers = s.handlers := by
  unfold setObjData; cases getObj s i <;> rfl

theorem setObjData_missCount (s : LuaState) (i : ℕ) (d : ButtonState) :
    (setObjData s i d).missCount = s.missCount := by
  unfold setObjData; cases getObj s i <;> rfl

theorem setObjData_trace (s : LuaState) (i : ℕ) (d : ButtonState) :
    (setObjData s i d).trace = s.trace := by
  unfold setObjData; cases getObj s i <;> rfl

theorem getObj_setObj_ne {s : LuaState} {i j : ℕ} (o : Obj) (h : i ≠ j) :
    getObj (setObj s i o) j = getObj s j := by
  simp [getObj, setObj, List.getElem?_set_ne h]

theorem getObj_setObj_self {s : LuaState} {i : ℕ} {o : Obj} (o' : Obj)
    (h : getObj s i = some o) : getObj (setObj s i o') i = some o' := by
  obtain ⟨hlt, -⟩ := List.getElem?_eq_some_iff.mp h
  simp [getObj, setObj, List.getElem?_set_self hlt]

theorem getObj_setObjData_ne {s : LuaState} {i j : ℕ} (d : ButtonState)
    (h : i ≠ j) : getObj (setObjData s i d) j = getObj s j := by
  unfold setObjData
  cases getObj s i with
  | none => rfl
  | some o => exact getObj_setObj_ne _ h

theorem getObj_setObjData_self {s : LuaState} {i : ℕ} {o : Obj}
    (d : ButtonState) (h : getObj s i = some o) :
    getObj (setObjData s i d) i = some { o with data := d } := by
  unfold setObjData
  rw [h]
  exact getObj_setObj_self _ h

theorem getObj_connect_ne {s : LuaState} {i j : ℕ} (name : String) (cb : Cb)
    (h : i ≠ j) : getObj (connect_signal s i name cb) j = getObj s j := by
  unfold connect_signal
  cases getObj s i with
  | none => rfl
  | some o => exact getObj_setObj_ne _ h

theorem getObj_disconnect_ne {s : LuaState} {i j : ℕ} (name : String)
    (h : i ≠ j) : getObj (disconnect_signal s i name) j = getObj s j := by
  unfold disconnect_signal
  cases getObj s i with
  | none => rfl
  | some o => exact getObj_setObj_ne _ h

theorem propertySet_getObj_ne {s s' : LuaState} {i j : ℕ} {k : String}
    {v : Value} (h : propertySet s i k v = .ok s') (hne : i ≠ j) :
    getObj s' j = getObj s j := by
  unfold propertySet at h
  repeat' split at h
  all_goals cases h
  all_goals exact getObj_setObjData_ne _ hne

/-- Running one callback with receiver i never changes any other
object: every action of a callback body targets the receiving object
or global instrumentation. -/
theorem runCb_getObj_ne {i j : ℕ} (hne : i ≠ j) :
    ∀ (c : Cb) (args : List Value) (s s' : LuaState),
      runCb c i args s = .ok s' → getObj s' j = getObj s j := by
  intro c
  induction c with
  | nop =>
    intro args s s' h
    cases h
    rfl
  | seq a b iha ihb =>
    intro args s s' h
    simp only [runCb] at h
    split at h
    next s₁ ha =>
      rw [ihb args s₁ s' h, iha args s s₁ ha]
    next => cases h
  | setProp k v =>
    intro args s s' h
    exact propertySet_getObj_ne h hne
  | setPropArg k n =>
    intro args s s' h
    exact propertySet_getObj_ne h hne
  | logTag t =>
    intro args s s' h
    cases h
    rfl
  | connectSig n cb ih =>
    intro args s s' h
    cases h
    exact getObj_connect_ne _ _ hne
  | disconnectSig n =>
    intro args s s' h
    cases h
    exact getObj_disconnect_ne _ hne

/-- Running a callback list with receiver i never changes any other
object. -/
theorem runCbs_getObj_ne {i j : ℕ} (hne : i ≠ j) :
    ∀ (cbs : List Cb) (args : List Value) (s s' : LuaState),
      runCbs cbs i args s = .ok s' → getObj s' j = getObj s j := by
  intro cbs
  induction cbs with
  | nil =>
    intro args s s' h
    cases h
    rfl
  | cons c rest ih =>
    intro args s s' h
    simp only [runCbs] at h
    split at h
    next s₁ hc =>
      rw [ih args s₁ s' h, runCb_getObj_ne hne c args s s₁ hc]
    next => cases h

theorem emit_getObj_ne {s s' : LuaState} {i j : ℕ} {name : String}
    {args : List Value} (h : emit_signal s i name args = .ok s')
    (hne : i ≠ j) : getObj s' j = getObj s j :=
  runCbs_getObj_ne hne _ args s s' h

/-! ### Signal registry lemmas -/

theorem sigLookup_nil (name : String) : sigLookup [] name = [] := rfl

theorem sigLookup_sigConnect_self (name : String) (cb : Cb) :
    ∀ sigs, sigLookup (sigConnect sigs name cb) name =
      sigLookup sigs name ++ [cb] := by
  intro sigs
  induction sigs with
  | nil => simp [sigConnect, sigLookup, List.lookup]
  | cons p rest ih =>
    obtain ⟨n, cbs⟩ := p
    by_cases hn : n = name
    · subst hn
      simp [sigConnect, sigLookup, List.lookup]
    · simp only [sigConnect, if_neg hn]
      have hbeq : (name == n) = false := by
        simp [hn]
        exact fun hh => hn hh.symm
      simp only [sigLookup, List.lookup, hbeq] at ih ⊢
      exact ih

theorem sigLookup_sigConnect_ne {nm nm' : String} (cb : Cb) (h : nm' ≠ nm) :
    ∀ sigs, sigLookup (sigConnect sigs nm cb) nm' = sigLookup sigs nm' := by
  intro sigs
  induction sigs with
  | nil =>
    have hbeq : (nm' == nm) = false := by simp [h]
    simp [sigConnect, sigLookup, List.lookup, hbeq]
  | cons p rest ih =>
    obtain ⟨n, cbs⟩ := p
    by_cases hn : n = nm
    · subst hn
      have hbeq : (nm' == n) = false := by simp [h]
      simp [sigConnect, sigLookup, List.lookup, hbeq]
    · simp only [sigConnect, if_neg hn]
      simp only [sigLookup, List.lookup] at ih ⊢
      cases hbeq : nm' == n with
      | true => simp
      | false => simpa using ih

theorem sigLookup_sigDisconnect_self (name : String) :
    ∀ sigs, sigLookup (sigDisconnect sigs name) name = [] := by
  intro sigs
  induction sigs with
  | nil => rfl
  | cons p rest ih =>
    obtain ⟨n, cbs⟩ := p
    simp only [sigDisconnect, List.filter] at ih ⊢
    by_cases hn : n = name
    · subst hn
      have hd : decide (n ≠ n) = false := by simp
      simp only [hd]
      exact ih
    · have hd : decide (n ≠ name) = true := by simp [hn]
      have hbeq : (name == n) = false := by
        simp only [beq_eq_false_iff_ne, ne_eq]
        exact fun hh => hn hh.symm
      simp only [hd]
      simp only [sigLookup, List.lookup, hbeq]
      simpa [sigLookup] using ih

/-! ### Dispatch lemmas for the button class -/

theorem buttonProperties_find_button :
    buttonProperties.find? (fun p => p.name == "button") =
      some ⟨"button", some set_button, some get_button, some set_button⟩ := rfl

theorem buttonProperties_find_other {k : String} (h1 : k ≠ "button")
    (h2 : k ≠ "modifiers") :
    buttonProperties.find? (fun p => p.name == k) = none := by
  have hb : ("button" == k) = false := by
    simp
    exact fun hh => h1 hh.symm
  have hm : ("modifiers" == k) = false := by
    simp
    exact fun hh => h2 hh.symm
  simp [buttonProperties, List.find?, hb, hm]

/-- A write of key button through the Dispatcher on a valid button
object applies the setter set_button and stores its result. -/
theorem propertySet_button {s : LuaState} {i : ℕ} {o : Obj} {d : ButtonState}
    {v : Value} (h : getObj s i = some o) (hk : o.klass = "button")
    (hc : buttonReady s) (hd : set_button o.data v = some d) :
    propertySet s i "button" v = .ok (setObjData s i d) := by
  have hc' : s.classes.lookup "button" = some buttonProperties := hc
  simp only [propertySet, h, hk, hc', buttonProperties_find_button, hd]

/-- A read of key button through the Dispatcher on a valid button
object applies the getter get_button, returning the stored button code
and leaving the state untouched. -/
theorem propertyGet_button {s : LuaState} {i : ℕ} {o : Obj}
    (h : getObj s i = some o) (hk : o.klass = "button")
    (hc : buttonReady s) :
    propertyGet s i "button" = .ok (s, .integer o.data.button) := by
  have hc' : s.classes.lookup "button" = some buttonProperties := hc
  simp only [propertyGet, h, hk, hc', buttonProperties_find_button, get_button]

/-- A read of an undeclared key on a valid button object falls through
to the index-miss handler of the button class when one is set: the
handler result is returned and the invocation is counted. -/
theorem propertyGet_miss {s : LuaState} {i : ℕ} {o : Obj} {k : String}
    {hnd : MissHandler} (h : getObj s i = some o) (hk : o.klass = "button")
    (hc : buttonReady s) (h1 : k ≠ "button") (h2 : k ≠ "modifiers")
    (hh : s.handlers.lookup "button" = some hnd) :
    propertyGet s i k =
      .ok ({ s with missCount := s.missCount + 1 }, hnd o.data k) := by
  have hc' : s.classes.lookup "button" = some buttonProperties := hc
  simp only [propertyGet, h, hk, hc', buttonProperties_find_other h1 h2, hh]

/-- A read of an undeclared key on a valid button object fails with
UnknownPropertyError when no index-miss handler is set. -/
theorem propertyGet_miss_none {s : LuaState} {i : ℕ} {o : Obj} {k : String}
    (h : getObj s i = some o) (hk : o.klass = "button")
    (hc : buttonReady s) (h1 : k ≠ "button") (h2 : k ≠ "modifiers")
    (hh : s.handlers.lookup "button" = none) :
    propertyGet s i k = .error .unknownProperty := by
  have hc' : s.classes.lookup "button" = some buttonProperties := hc
  simp only [propertyGet, h, hk, hc', buttonProperties_find_other h1 h2, hh]

/-! ### Lemmas on object construction and state plumbing -/

theorem getObj_allocator_fresh (s : LuaState) :
    getObj (allocator s).1 (allocator s).2 =
      some ⟨ButtonState.default, [], "button"⟩ := by
  simp [allocator, getObj, List.getElem?_concat_length]

theorem allocator_classes (s : LuaState) : (allocator s).1.classes = s.classes :=
  rfl

theorem allocator_handlers (s : LuaState) :
    (allocator s).1.handlers = s.handlers := rfl

theorem getObj_allocator_old {s : LuaState} {j : ℕ} {o : Obj}
    (h : getObj s j = some o) : getObj (allocator s).1 j = some o := by
  obtain ⟨hlt, -⟩ := List.getElem?_eq_some_iff.mp h
  simpa [allocator, getObj, List.getElem?_append_left hlt] using h

theorem setObjData_setObjData {s : LuaState} {i : ℕ} {o : Obj}
    (d₁ d₂ : ButtonState) (h : getObj s i = some o) :
    setObjData (setObjData s i d₁) i d₂ = setObjData s i d₂ := by
  simp only [setObjData, h]
  rw [getObj_setObj_self ({ o with data := d₁ }) h]
  simp [setObj, List.set_set]

theorem setObjData_signals {s : LuaState} {i : ℕ} {o : Obj}
    (d : ButtonState) (h : getObj s i = some o) :
    getObj (setObjData s i d) i = some { o with data := d } :=
  getObj_setObjData_self d h

theorem connect_trace (s : LuaState) (i : ℕ) (name : String) (cb : Cb) :
    (connect_signal s i name cb).trace = s.trace := by
  unfold connect_signal; cases getObj s i <;> rfl

theorem connect_classes (s : LuaState) (i : ℕ) (name : String) (cb : Cb) :
    (connect_signal s i name cb).classes = s.classes := by
  unfold connect_signal; cases getObj s i <;> rfl

theorem connect_handlers (s : LuaState) (i : ℕ) (name : String) (cb : Cb) :
    (connect_signal s i name cb).handlers = s.handlers := by
  unfold connect_signal; cases getObj s i <;> rfl

theorem connect_missCount (s : LuaState) (i : ℕ) (name : String) (cb : Cb) :
    (connect_signal s i name cb).missCount = s.missCount := by
  unfold connect_signal; cases getObj s i <;> rfl

theorem getObj_connect_self {s : LuaState} {i : ℕ} {o : Obj}
    (name : String) (cb : Cb) (h : getObj s i = some o) :
    getObj (connect_signal s i name cb) i =
      some { o with signals := sigConnect o.signals name cb } := by
  unfold connect_signal
  rw [h]
  exact getObj_setObj_self _ h

theorem getObj_disconnect_self {s : LuaState} {i : ℕ} {o : Obj}
    (name : String) (h : getObj s i = some o) :
    getObj (disconnect_signal s i name) i =
      some { o with signals := sigDisconnect o.signals name } := by
  unfold disconnect_signal
  rw [h]
  exact getObj_setObj_self _ h

theorem invokedCbs_connect_self {s : LuaState} {i : ℕ} {o : Obj}
    (name : String) (cb : Cb) (h : getObj s i = some o) :
    invokedCbs (connect_signal s i name cb) i name =
      invokedCbs s i name ++ [cb] := by
  unfold invokedCbs
  rw [getObj_connect_self name cb h, h]
  exact sigLookup_sigConnect_self name cb o.signals

theorem invokedCbs_disconnect_self (s : LuaState) (i : ℕ) (name : String) :
    invokedCbs (disconnect_signal s i name) i name = [] := by
  unfold invokedCbs
  cases h : getObj s i with
  | none =>
    simp only [disconnect_signal, h]
  | some o =>
    rw [getObj_disconnect_self name h]
    exact sigLookup_sigDisconnect_self name o.signals

theorem invokedCbs_setObjData {s : LuaState} {i : ℕ} {o : Obj}
    (d : ButtonState) (name : String) (h : getObj s i = some o) :
    invokedCbs (setObjData s i d) i name = invokedCbs s i name := by
  unfold invokedCbs
  rw [getObj_setObjData_self d h, h]

theorem disconnect_trace (s : LuaState) (i : ℕ) (name : String) :
    (disconnect_signal s i name).trace = s.trace := by
  unfold disconnect_signal; cases getObj s i <;> rfl

theorem invokedCbs_setTrace (s : LuaState) (tr : List ℕ) (i : ℕ)
    (name : String) :
    invokedCbs { s with trace := tr } i name = invokedCbs s i name := rfl

/-! ### Claim theorems -/

/-- C1 (Signal isolation): for two distinct Objects o1 and o2 of the
button Class, connecting a callback to a signal name on o1 and then
emitting that signal on o1 leaves the object o2 — in particular its
data — entirely unchanged, and the set of callbacks the emission
invokes does not depend on the signal registry of o2: o2 callbacks are
never invoked. -/
theorem signal_isolation (s s' : LuaState) (o1 o2 : ℕ) (name : String)
    (cb : Cb) (args : List Value) (hne : o1 ≠ o2)
    (hemit : emit_signal (connect_signal s o1 name cb) o1 name args = .ok s') :
    getObj s' o2 = getObj s o2 ∧
    (getObj s' o2).map Obj.data = (getObj s o2).map Obj.data ∧
    ∀ r2 : List (String × List Cb),
      invokedCbs (updObjSignals s o2 r2) o1 name = invokedCbs s o1 name := by
  have h2 : getObj s' o2 = getObj s o2 := by
    rw [emit_getObj_ne hemit hne, getObj_connect_ne name cb hne]
  refine ⟨h2, by rw [h2], ?_⟩
  intro r2
  unfold updObjSignals
  cases hg : getObj s o2 with
  | none => rfl
  | some o =>
    unfold invokedCbs
    rw [getObj_setObj_ne _ hne.symm]

/-- Witness for C1 at the scenario of the spec: two buttons, a
callback on the first that sets the button code to 3, emitted on the
first; the second button object is untouched and its code stays 0. -/
theorem signal_isolation_witness :
    getObj (setObjData (connect_signal twoButtons 0 "test"
        (.setProp "button" (.integer 3))) 0 ⟨3, []⟩) 1 = getObj twoButtons 1 ∧
    (getObj twoButtons 1).map Obj.data = some ⟨0, []⟩ :=
  ⟨(signal_isolation twoButtons
      (setObjData (connect_signal twoButtons 0 "test"
        (.setProp "button" (.integer 3))) 0 ⟨3, []⟩)
      0 1 "test" (.setProp "button" (.integer 3)) [] (by decide) (by rfl)).1,
   rfl⟩

/-- C2 counterexample: writing the integer 300 to the button property
succeeds, but a subsequent read returns 44, not 300: the i64 value is
cast to the u8 button code with wrap-around, so the read does not
return v itself for every integer v. -/
theorem button_roundtrip_counterexample :
    propertySet oneButton 0 "button" (.integer 300) =
      .ok (setObjData oneButton 0 ⟨44, []⟩) ∧
    propertyGet (setObjData oneButton 0 ⟨44, []⟩) 0 "button" =
      .ok (setObjData oneButton 0 ⟨44, []⟩, .integer 44) ∧
    Value.integer 44 ≠ Value.integer 300 :=
  ⟨rfl, rfl, by decide⟩

/-- C2 amended (property round-trip): after a write of an integer v to
the button property, a read returns exactly the value the setter
stored, namely v reduced modulo 256 (the i64 to u8 cast); when v lies
in the u8 range 0..255 — in particular in every test of button.rs —
the read returns v itself. -/
theorem button_roundtrip (s : LuaState) (i : ℕ) (o : Obj) (v : ℤ)
    (h : getObj s i = some o) (hk : o.klass = "button")
    (hc : buttonReady s) :
    propertySet s i "button" (.integer v) =
      .ok (setObjData s i { o.data with button := i64AsU8 v }) ∧
    propertyGet (setObjData s i { o.data with button := i64AsU8 v }) i
        "button" =
      .ok (setObjData s i { o.data with button := i64AsU8 v },
           .integer (i64AsU8 v)) ∧
    (0 ≤ v → v < 256 → Value.integer (i64AsU8 v) = .integer v) := by
  have hset : set_button o.data (.integer v) =
      some { o.data with button := i64AsU8 v } := rfl
  refine ⟨propertySet_button h hk hc hset, ?_, ?_⟩
  · have h' : getObj (setObjData s i { o.data with button := i64AsU8 v }) i =
        some { o with data := { o.data with button := i64AsU8 v } } :=
      getObj_setObjData_self _ h
    have hc' : buttonReady (setObjData s i { o.data with button := i64AsU8 v }) := by
      unfold buttonReady
      rw [setObjData_classes]
      exact hc
    exact propertyGet_button h' hk hc'
  · intro h0 h256
    congr 1
    unfold i64AsU8
    omega

/-- Witness for C2 amended at v equal 5, the value of
button_property_test: the write stores 5 and the read returns 5. -/
theorem button_roundtrip_witness :
    propertySet oneButton 0 "button" (.integer 5) =
      .ok (setObjData oneButton 0 ⟨5, []⟩) ∧
    propertyGet (setObjData oneButton 0 ⟨5, []⟩) 0 "button" =
      .ok (setObjData oneButton 0 ⟨5, []⟩, .integer 5) := by
  have hr := button_roundtrip oneButton 0 ⟨⟨0, []⟩, [], "button"⟩ 5 rfl rfl rfl
  exact ⟨hr.1, hr.2.1⟩

/-- C10 (fresh-instance defaults): the allocator produces an object
with button code 0 and an empty modifier set, an empty signal registry
and a reference to the button class; calling the class as a factory
(new) does exactly what the allocator does; and init declares exactly
the two properties button and modifiers, saving the class under the
name button. -/
theorem button_class_defaults :
    (∀ s : LuaState, getObj (allocator s).1 (allocator s).2 =
      some ⟨ButtonState.default, [], "button"⟩) ∧
    (∀ s : LuaState, newButton s = allocator s) ∧
    ButtonState.default = ⟨0, []⟩ ∧
    buttonProperties.map PropertyDesc.name = ["button", "modifiers"] ∧
    (∀ s : LuaState, (init s).classes.lookup "button" = some buttonProperties) :=
  ⟨getObj_allocator_fresh, fun _ => rfl, rfl, rfl, fun _ => rfl⟩

/-- C7 (disconnect clears all, empty emission is a no-op): after
disconnect_signal, emitting that signal invokes zero callbacks and
returns the state unchanged, however many callbacks had been
connected; and emitting a signal whose callback list is empty or was
never created succeeds and changes nothing. -/
theorem disconnect_clears_and_empty_emit (s : LuaState) (i : ℕ)
    (name : String) (args : List Value) :
    emit_signal (disconnect_signal s i name) i name args =
      .ok (disconnect_signal s i name) ∧
    invokedCbs (disconnect_signal s i name) i name = [] ∧
    (invokedCbs s i name = [] → emit_signal s i name args = .ok s) := by
  have hz := invokedCbs_disconnect_self s i name
  refine ⟨?_, hz, fun he => ?_⟩
  · unfold emit_signal
    rw [hz]
    rfl
  · unfold emit_signal
    rw [he]
    rfl

/-- Witness for C7: mirror of button_remove_signal_test — a callback
had been connected under test, the signal is disconnected, and the
following emission is a no-op; emission of a never-created signal name
on a fresh button is also a no-op. -/
theorem disconnect_clears_witness :
    emit_signal (disconnect_signal (connect_signal oneButton 0 "test"
        (.setProp "button" (.integer 3))) 0 "test") 0 "test" [] =
      .ok (disconnect_signal (connect_signal oneButton 0 "test"
        (.setProp "button" (.integer 3))) 0 "test") ∧
    invokedCbs oneButton 0 "unset" = [] ∧
    emit_signal oneButton 0 "unset" [] = .ok oneButton := by
  have h1 := disconnect_clears_and_empty_emit (connect_signal oneButton 0
    "test" (.setProp "button" (.integer 3))) 0 "test" []
  have h2 := disconnect_clears_and_empty_emit oneButton 0 "unset" []
  exact ⟨h1.1, rfl, h2.2.2 rfl⟩

/-- C3 (index-miss handler is class-wide and retroactive): for any
state and any button object living in it — so also for objects
instantiated before the handler is set — installing an index-miss
handler on the button class makes every subsequent read of an
undeclared key invoke that new handler and return its result (the
invocation is counted in missCount). -/
theorem index_miss_retroactive (s : LuaState) (hnd : MissHandler) (i : ℕ)
    (o : Obj) (k : String) (h : getObj s i = some o)
    (hk : o.klass = "button") (hc : buttonReady s)
    (h1 : k ≠ "button") (h2 : k ≠ "modifiers") :
    propertyGet (set_index_miss_handler s "button" hnd) i k =
      .ok ({ set_index_miss_handler s "button" hnd with
             missCount := s.missCount + 1 }, hnd o.data k) := by
  have hobj : getObj (set_index_miss_handler s "button" hnd) i = some o := h
  have hct : buttonReady (set_index_miss_handler s "button" hnd) := hc
  have hh : (set_index_miss_handler s "button" hnd).handlers.lookup "button" =
      some hnd := rfl
  exact propertyGet_miss hobj hk hct h1 h2 hh

/-- Witness for C3 at the scenario of button_index_property: both
buttons of handlerState were instantiated before the constant-5
handler was installed; reading the undeclared key aoeu on either
returns 5 and counts one handler invocation; a button instantiated
after the handler is installed behaves the same. -/
theorem index_miss_retroactive_witness :
    propertyGet handlerState 0 "aoeu" =
      .ok ({ handlerState with missCount := 1 }, .integer 5) ∧
    propertyGet handlerState 1 "aoeu" =
      .ok ({ handlerState with missCount := 1 }, .integer 5) ∧
    propertyGet (allocator handlerState).1 2 "aoeu" =
      .ok ({ (allocator handlerState).1 with missCount := 1 }, .integer 5) := by
  have ha := index_miss_retroactive twoButtons hitHandler 0
    ⟨⟨0, []⟩, [], "button"⟩ "aoeu" rfl rfl rfl (by decide) (by decide)
  have hb := index_miss_retroactive twoButtons hitHandler 1
    ⟨⟨0, []⟩, [], "button"⟩ "aoeu" rfl rfl rfl (by decide) (by decide)
  exact ⟨ha, hb, rfl⟩

/-- C6 (two-tier dispatch): with an index-miss handler installed, a
read of the declared key button still invokes the getter and returns
the stored code with the state — missCount included — untouched, so
the handler is not consulted; a direct write through the declared
setter leaves missCount unchanged, bypassing the handler; and the
handler is invoked exactly on keys not found among the declared
properties. -/
theorem two_tier_dispatch (s : LuaState) (i : ℕ) (o : Obj)
    (hnd : MissHandler) (h : getObj s i = some o) (hk : o.klass = "button")
    (hc : buttonReady s) (hh : s.handlers.lookup "button" = some hnd) :
    propertyGet s i "button" = .ok (s, .integer o.data.button) ∧
    (∀ v d, set_button o.data v = some d →
      propertySet s i "button" v = .ok (setObjData s i d) ∧
      (setObjData s i d).missCount = s.missCount) ∧
    (∀ k, k ≠ "button" → k ≠ "modifiers" →
      propertyGet s i k =
        .ok ({ s with missCount := s.missCount + 1 }, hnd o.data k)) :=
  ⟨propertyGet_button h hk hc,
   fun v d hd => ⟨propertySet_button h hk hc hd, setObjData_missCount s i d⟩,
   fun k h1 h2 => propertyGet_miss h hk hc h1 h2 hh⟩

/-- Witness for C6 at the scenario of button_index_property: with the
constant-5 handler installed, reading button returns the declared
getter result 0 (not 5) without invoking the handler, writing button
to 5 through the declared setter does not invoke the handler, and
reading the undeclared key aoeu invokes it and returns 5. -/
theorem two_tier_dispatch_witness :
    propertyGet handlerState 0 "button" = .ok (handlerState, .integer 0) ∧
    propertySet handlerState 0 "button" (.integer 5) =
      .ok (setObjData handlerState 0 ⟨5, []⟩) ∧
    (setObjData handlerState 0 ⟨5, []⟩).missCount = 0 ∧
    propertyGet handlerState 0 "aoeu" =
      .ok ({ handlerState with missCount := 1 }, .integer 5) := by
  have h := two_tier_dispatch handlerState 0 ⟨⟨0, []⟩, [], "button"⟩
    hitHandler rfl rfl rfl rfl
  exact ⟨h.1, (h.2.1 (.integer 5) ⟨5, []⟩ rfl).1,
    (h.2.1 (.integer 5) ⟨5, []⟩ rfl).2, h.2.2 "aoeu" (by decide) (by decide)⟩

/-- C5 (coercion-or-default on write): in general, when the assigned
value fails the expected-type check of the declared setter and a
default_setter is declared, the Dispatcher invokes the default_setter
and the write succeeds with its result instead of failing; for the
button property of the button class, whose setter itself coerces,
writing any value that is neither a Number nor an Integer succeeds and
stores the default button code 0 — never a TypeMismatchError. -/
theorem coercion_or_default :
    (∀ (s : LuaState) (i : ℕ) (o : Obj) (props : List PropertyDesc)
       (p : PropertyDesc) (k : String) (v : Value)
       (f g : ButtonState → Value → Option ButtonState) (d : ButtonState),
       getObj s i = some o → s.classes.lookup o.klass = some props →
       props.find? (fun q => q.name == k) = some p →
       p.setter = some f → f o.data v = none →
       p.default_setter = some g → g o.data v = some d →
       propertySet s i k v = .ok (setObjData s i d)) ∧
    (∀ (s : LuaState) (i : ℕ) (o : Obj) (v : Value),
       getObj s i = some o → o.klass = "button" → buttonReady s →
       isNumOrInt v = false →
       propertySet s i "button" v =
         .ok (setObjData s i { o.data with button := 0 })) := by
  constructor
  · intro s i o props p k v f g d h hcl hf hset hfv hds hgv
    simp only [propertySet, h, hcl, hf, hset, hfv, hds, hgv]
  · intro s i o v h hk hc hv
    have hd : set_button o.data v = some { o.data with button := 0 } := by
      cases v <;> first | rfl | (exact absurd hv (by simp [isNumOrInt]))
    exact propertySet_button h hk hc hd

/-- Witness for C5: on fallbackState the setter of property x rejects
nil and the default_setter stores the data 7 — the write succeeds; on
a fresh button, writing the string hi (neither Number nor Integer) to
the button property succeeds and stores code 0. -/
theorem coercion_or_default_witness :
    propertySet fallbackState 0 "x" .nil =
      .ok (setObjData fallbackState 0 ⟨7, []⟩) ∧
    propertySet oneButton 0 "button" (.str "hi") =
      .ok (setObjData oneButton 0 ⟨0, []⟩) :=
  ⟨coercion_or_default.1 fallbackState 0 ⟨ButtonState.default, [], "c"⟩
     [fallbackProp] fallbackProp "x" .nil _ _ ⟨7, []⟩ rfl rfl rfl rfl rfl rfl rfl,
   coercion_or_default.2 oneButton 0 ⟨⟨0, []⟩, [], "button"⟩ (.str "hi")
     rfl rfl rfl rfl⟩

/-- C4 (signal ordering): an emission whose snapshot holds the
callbacks c1, c2, c3 — connected in that order — runs them as the
sequential composition c1 then c2 then c3; three logging callbacks
connected in order t1, t2, t3 leave exactly the trace t1, t2, t3; and
of two callbacks writing the button property to 5 and then to 10,
connected in that order, the last-connected write 10 is the value
observed after the emission. -/
theorem signal_order (s : LuaState) (i : ℕ) (o : Obj) (name : String)
    (t1 t2 t3 : ℕ) (h : getObj s i = some o) (hk : o.klass = "button")
    (hc : buttonReady s) (hempty : invokedCbs s i name = []) :
    (∀ (t : LuaState) (c1 c2 c3 : Cb) (args : List Value),
      invokedCbs t i name = [c1, c2, c3] →
      emit_signal t i name args =
        Except.bind (runCb c1 i args t) (fun x =>
          Except.bind (runCb c2 i args x) (fun y => runCb c3 i args y))) ∧
    emit_signal
        (connect_signal (connect_signal (connect_signal s i name
          (.logTag t1)) i name (.logTag t2)) i name (.logTag t3))
        i name [] =
      .ok { connect_signal (connect_signal (connect_signal s i name
          (.logTag t1)) i name (.logTag t2)) i name (.logTag t3) with
            trace := s.trace ++ [t1, t2, t3] } ∧
    emit_signal
        (connect_signal (connect_signal s i name
          (.setProp "button" (.integer 5))) i name
          (.setProp "button" (.integer 10))) i name [] =
      .ok (setObjData
        (connect_signal (connect_signal s i name
          (.setProp "button" (.integer 5))) i name
          (.setProp "button" (.integer 10))) i
        { o.data with button := 10 }) := by
  refine ⟨?_, ?_, ?_⟩
  · intro t c1 c2 c3 args hinv
    unfold emit_signal
    rw [hinv]
    cases h1 : runCb c1 i args t with
    | error e => simp [runCbs, Except.bind, h1]
    | ok x =>
      cases h2 : runCb c2 i args x with
      | error e => simp [runCbs, Except.bind, h1, h2]
      | ok y =>
        cases h3 : runCb c3 i args y with
        | error e => simp [runCbs, Except.bind, h1, h2, h3]
        | ok z => simp [runCbs, Except.bind, h1, h2, h3]
  · have hg1 := getObj_connect_self name (Cb.logTag t1) h
    have hg2 := getObj_connect_self name (Cb.logTag t2) hg1
    have hinv : invokedCbs (connect_signal (connect_signal (connect_signal s
        i name (.logTag t1)) i name (.logTag t2)) i name (.logTag t3))
        i name = [.logTag t1, .logTag t2, .logTag t3] := by
      rw [invokedCbs_connect_self name _ hg2,
          invokedCbs_connect_self name _ hg1,
          invokedCbs_connect_self name _ h, hempty]
      rfl
    unfold emit_signal
    rw [hinv]
    simp only [runCbs, runCb]
    rw [connect_trace, connect_trace, connect_trace]
    simp [List.append_assoc]
  · have hg1 := getObj_connect_self name (Cb.setProp "button" (.integer 5)) h
    have hg2 := getObj_connect_self name (Cb.setProp "button" (.integer 10)) hg1
    have hinv : invokedCbs (connect_signal (connect_signal s i name
        (.setProp "button" (.integer 5))) i name
        (.setProp "button" (.integer 10))) i name =
        [.setProp "button" (.integer 5), .setProp "button" (.integer 10)] := by
      rw [invokedCbs_connect_self name (Cb.setProp "button" (.integer 10)) hg1,
          invokedCbs_connect_self name (Cb.setProp "button" (.integer 5)) h,
          hempty]
      rfl
    have hc2 : buttonReady (connect_signal (connect_signal s i name
        (.setProp "button" (.integer 5))) i name
        (.setProp "button" (.integer 10))) := by
      unfold buttonReady
      rw [connect_classes, connect_classes]
      exact hc
    have hstep1 : propertySet (connect_signal (connect_signal s i name
        (.setProp "button" (.integer 5))) i name
        (.setProp "button" (.integer 10))) i "button" (.integer 5) =
        .ok (setObjData (connect_signal (connect_signal s i name
          (.setProp "button" (.integer 5))) i name
          (.setProp "button" (.integer 10))) i
          { o.data with button := 5 }) :=
      propertySet_button hg2 hk hc2 rfl
    have hgA := getObj_setObjData_self (o := _) ({ o.data with button := 5 }) hg2
    have hcA : buttonReady (setObjData (connect_signal (connect_signal s i name
        (.setProp "button" (.integer 5))) i name
        (.setProp "button" (.integer 10))) i { o.data with button := 5 }) := by
      unfold buttonReady
      rw [setObjData_classes, connect_classes, connect_classes]
      exact hc
    have hstep2 : propertySet (setObjData (connect_signal (connect_signal s
        i name (.setProp "button" (.integer 5))) i name
        (.setProp "button" (.integer 10))) i { o.data with button := 5 }) i
        "button" (.integer 10) =
        .ok (setObjData (setObjData (connect_signal (connect_signal s i name
          (.setProp "button" (.integer 5))) i name
          (.setProp "button" (.integer 10))) i { o.data with button := 5 }) i
          { o.data with button := 10 }) :=
      propertySet_button hgA hk hcA rfl
    have hcollapse := setObjData_setObjData ({ o.data with button := 5 })
      ({ o.data with button := 10 }) hg2
    unfold emit_signal
    rw [hinv]
    simp only [runCbs, runCb, hstep1, hstep2]
    rw [hcollapse]

/-- Witness for C4 at the scenario of the spec: on a fresh button,
three logging callbacks connected in order 1, 2, 3 leave exactly the
trace 1, 2, 3, and of the two writes 5 then 10 connected under one
name, the emission leaves the button code 10 — last writer wins. -/
theorem signal_order_witness :
    emit_signal (connect_signal (connect_signal (connect_signal oneButton 0
        "test" (.logTag 1)) 0 "test" (.logTag 2)) 0 "test" (.logTag 3))
        0 "test" [] =
      .ok { connect_signal (connect_signal (connect_signal oneButton 0
        "test" (.logTag 1)) 0 "test" (.logTag 2)) 0 "test" (.logTag 3) with
          trace := [1, 2, 3] } ∧
    emit_signal (connect_signal (connect_signal oneButton 0 "test"
        (.setProp "button" (.integer 5))) 0 "test"
        (.setProp "button" (.integer 10))) 0 "test" [] =
      .ok (setObjData (connect_signal (connect_signal oneButton 0 "test"
        (.setProp "button" (.integer 5))) 0 "test"
        (.setProp "button" (.integer 10))) 0 ⟨10, []⟩) := by
  have hs := signal_order oneButton 0 ⟨⟨0, []⟩, [], "button"⟩ "test" 1 2 3
    rfl rfl rfl rfl
  exact ⟨hs.2.1, hs.2.2⟩

/-- C8 (re-entrancy snapshot): the set of callbacks an emission
invokes is fixed at the start of the call: a callback that connects a
new callback under the same name while the emission runs does not get
it invoked in that pass — the trace gains exactly the two snapshot
tags and the new callback is only registered for later passes; a
callback that disconnects the signal while the emission runs does not
prevent the remaining snapshot callback from being invoked — nothing
is skipped or invoked twice — while the registry is empty afterwards. -/
theorem emit_snapshot (s : LuaState) (i : ℕ) (o : Obj) (name : String)
    (n t1 t2 u1 u2 : ℕ) (h : getObj s i = some o)
    (hempty : invokedCbs s i name = []) :
    ((emit_signal (connect_signal (connect_signal s i name
        (.seq (.connectSig name (.logTag n)) (.logTag t1))) i name
        (.logTag t2)) i name []).map LuaState.trace =
      .ok (s.trace ++ [t1, t2]) ∧
     (emit_signal (connect_signal (connect_signal s i name
        (.seq (.connectSig name (.logTag n)) (.logTag t1))) i name
        (.logTag t2)) i name []).map (fun u => invokedCbs u i name) =
      .ok [.seq (.connectSig name (.logTag n)) (.logTag t1), .logTag t2,
           .logTag n]) ∧
    ((emit_signal (connect_signal (connect_signal s i name
        (.seq (.disconnectSig name) (.logTag u1))) i name
        (.logTag u2)) i name []).map LuaState.trace =
      .ok (s.trace ++ [u1, u2]) ∧
     (emit_signal (connect_signal (connect_signal s i name
        (.seq (.disconnectSig name) (.logTag u1))) i name
        (.logTag u2)) i name []).map (fun u => invokedCbs u i name) =
      .ok []) := by
  constructor
  · have hg1 := getObj_connect_self name
      (Cb.seq (.connectSig name (.logTag n)) (.logTag t1)) h
    have hg2 := getObj_connect_self name (Cb.logTag t2) hg1
    have hinv : invokedCbs (connect_signal (connect_signal s i name
        (.seq (.connectSig name (.logTag n)) (.logTag t1))) i name
        (.logTag t2)) i name =
        [.seq (.connectSig name (.logTag n)) (.logTag t1), .logTag t2] := by
      rw [invokedCbs_connect_self name (Cb.logTag t2) hg1,
          invokedCbs_connect_self name
            (Cb.seq (.connectSig name (.logTag n)) (.logTag t1)) h, hempty]
      rfl
    have hok : emit_signal (connect_signal (connect_signal s i name
        (.seq (.connectSig name (.logTag n)) (.logTag t1))) i name
        (.logTag t2)) i name [] =
        .ok { connect_signal (connect_signal (connect_signal s i name
            (.seq (.connectSig name (.logTag n)) (.logTag t1))) i name
            (.logTag t2)) i name (.logTag n) with
          trace := ((connect_signal (connect_signal (connect_signal s i name
            (.seq (.connectSig name (.logTag n)) (.logTag t1))) i name
            (.logTag t2)) i name (.logTag n)).trace ++ [t1]) ++ [t2] } := by
      unfold emit_signal
      rw [hinv]
      rfl
    rw [hok]
    constructor
    · simp only [Except.map]
      rw [connect_trace, connect_trace, connect_trace]
      simp [List.append_assoc]
    · simp only [Except.map]
      refine congrArg Except.ok ?_
      show invokedCbs (connect_signal (connect_signal (connect_signal s
        i name (.seq (.connectSig name (.logTag n)) (.logTag t1))) i name
        (.logTag t2)) i name (.logTag n)) i name = _
      rw [invokedCbs_connect_self name (Cb.logTag n) hg2, hinv]
      rfl
  · have hg1 := getObj_connect_self name
      (Cb.seq (.disconnectSig name) (.logTag u1)) h
    have hg2 := getObj_connect_self name (Cb.logTag u2) hg1
    have hinv : invokedCbs (connect_signal (connect_signal s i name
        (.seq (.disconnectSig name) (.logTag u1))) i name
        (.logTag u2)) i name =
        [.seq (.disconnectSig name) (.logTag u1), .logTag u2] := by
      rw [invokedCbs_connect_self name (Cb.logTag u2) hg1,
          invokedCbs_connect_self name
            (Cb.seq (.disconnectSig name) (.logTag u1)) h, hempty]
      rfl
    have hok : emit_signal (connect_signal (connect_signal s i name
        (.seq (.disconnectSig name) (.logTag u1))) i name
        (.logTag u2)) i name [] =
        .ok { disconnect_signal (connect_signal (connect_signal s i name
            (.seq (.disconnectSig name) (.logTag u1))) i name
            (.logTag u2)) i name with
          trace := ((disconnect_signal (connect_signal (connect_signal s
            i name (.seq (.disconnectSig name) (.logTag u1))) i name
            (.logTag u2)) i name).trace ++ [u1]) ++ [u2] } := by
      unfold emit_signal
      rw [hinv]
      rfl
    rw [hok]
    constructor
    · simp only [Except.map]
      rw [disconnect_trace, connect_trace, connect_trace]
      simp [List.append_assoc]
    · simp only [Except.map]
      refine congrArg Except.ok ?_
      show invokedCbs (disconnect_signal (connect_signal (connect_signal s
        i name (.seq (.disconnectSig name) (.logTag u1))) i name
        (.logTag u2)) i name) i name = _
      rw [invokedCbs_disconnect_self]

/-- Witness for C8 on a fresh button: the connecting callback leaves
the trace 1, 2 with the tag-9 callback only registered for later, and
the disconnecting callback leaves the trace 3, 4 with an empty
registry afterwards. -/
theorem emit_snapshot_witness :
    (emit_signal snapState 0 "test" []).map LuaState.trace = .ok [1, 2] ∧
    (emit_signal snapState 0 "test" []).map (fun u => invokedCbs u 0 "test") =
      .ok [snapCb, .logTag 2, .logTag 9] ∧
    (emit_signal snapStateD 0 "test" []).map LuaState.trace = .ok [3, 4] ∧
    (emit_signal snapStateD 0 "test" []).map (fun u => invokedCbs u 0 "test") =
      .ok [] := by
  have hs := emit_snapshot oneButton 0 ⟨⟨0, []⟩, [], "button"⟩ "test" 9 1 2 3 4
    rfl rfl
  exact ⟨hs.1.1, hs.1.2, hs.2.1, hs.2.2⟩

/-- C9 counterexample: a callback storing the extra emitted argument
into the button property does not leave the property equal to that
argument for every argument: emitting with the integer 300 stores the
wrapped u8 code 44, and the subsequent read returns 44, not 300. -/
theorem emit_args_counterexample :
    emit_signal (connect_signal oneButton 0 "test" (.setPropArg "button" 0))
        0 "test" [.integer 300] =
      .ok (setObjData (connect_signal oneButton 0 "test"
        (.setPropArg "button" 0)) 0 ⟨44, []⟩) ∧
    propertyGet (setObjData (connect_signal oneButton 0 "test"
        (.setPropArg "button" 0)) 0 ⟨44, []⟩) 0 "button" =
      .ok (setObjData (connect_signal oneButton 0 "test"
        (.setPropArg "button" 0)) 0 ⟨44, []⟩, .integer 44) ∧
    Value.integer 44 ≠ Value.integer 300 :=
  ⟨rfl, rfl, by decide⟩

/-- C9 amended (emission argument passing): every callback in the
snapshot receives the receiving object and the extra emitted
arguments; a callback that stores the first extra argument into the
button property leaves the property equal to the value the setter
stored — the argument reduced modulo 256, the argument itself whenever
it lies in the u8 range 0..255 — after each emission, in sequence
across successive emissions. -/
theorem emit_args (s : LuaState) (i : ℕ) (o : Obj) (name : String)
    (a b : ℤ) (h : getObj s i = some o) (hk : o.klass = "button")
    (hc : buttonReady s) (hempty : invokedCbs s i name = []) :
    emit_signal (connect_signal s i name (.setPropArg "button" 0)) i name
        [.integer a] =
      .ok (setObjData (connect_signal s i name (.setPropArg "button" 0)) i
            { o.data with button := i64AsU8 a }) ∧
    emit_signal (setObjData (connect_signal s i name
        (.setPropArg "button" 0)) i { o.data with button := i64AsU8 a })
        i name [.integer b] =
      .ok (setObjData (connect_signal s i name (.setPropArg "button" 0)) i
            { o.data with button := i64AsU8 b }) ∧
    (∀ v : ℤ, 0 ≤ v → v < 256 → ((i64AsU8 v : ℤ) = v)) := by
  have hg1 := getObj_connect_self name (Cb.setPropArg "button" 0) h
  have hinv : invokedCbs (connect_signal s i name (.setPropArg "button" 0))
      i name = [.setPropArg "button" 0] := by
    rw [invokedCbs_connect_self name (Cb.setPropArg "button" 0) h, hempty]
    rfl
  have hc1 : buttonReady (connect_signal s i name (.setPropArg "button" 0)) := by
    unfold buttonReady
    rw [connect_classes]
    exact hc
  have hstep1 : propertySet (connect_signal s i name
      (.setPropArg "button" 0)) i "button" (.integer a) =
      .ok (setObjData (connect_signal s i name (.setPropArg "button" 0)) i
        { o.data with button := i64AsU8 a }) :=
    propertySet_button hg1 hk hc1 rfl
  have hgA := getObj_setObjData_self (o := _)
    ({ o.data with button := i64AsU8 a }) hg1
  have hcA : buttonReady (setObjData (connect_signal s i name
      (.setPropArg "button" 0)) i { o.data with button := i64AsU8 a }) := by
    unfold buttonReady
    rw [setObjData_classes, connect_classes]
    exact hc
  have hinvA : invokedCbs (setObjData (connect_signal s i name
      (.setPropArg "button" 0)) i { o.data with button := i64AsU8 a })
      i name = [.setPropArg "button" 0] := by
    rw [invokedCbs_setObjData _ name hg1, hinv]
  have hstep2 : propertySet (setObjData (connect_signal s i name
      (.setPropArg "button" 0)) i { o.data with button := i64AsU8 a }) i
      "button" (.integer b) =
      .ok (setObjData (setObjData (connect_signal s i name
        (.setPropArg "button" 0)) i { o.data with button := i64AsU8 a }) i
        { o.data with button := i64AsU8 b }) :=
    propertySet_button hgA hk hcA rfl
  have hcollapse := setObjData_setObjData ({ o.data with button := i64AsU8 a })
    ({ o.data with button := i64AsU8 b }) hg1
  refine ⟨?_, ?_, ?_⟩
  · unfold emit_signal
    rw [hinv]
    have harg : ([Value.integer a].getD 0 Value.nil) = Value.integer a := rfl
    simp only [runCbs, runCb]
    rw [harg, hstep1]
  · unfold emit_signal
    rw [hinvA]
    have harg : ([Value.integer b].getD 0 Value.nil) = Value.integer b := rfl
    simp only [runCbs, runCb]
    rw [harg, hstep2]
    exact congrArg Except.ok hcollapse
  · intro v h0 h256
    unfold i64AsU8
    omega

/-- Witness for C9 amended at the scenario of
button_emit_signal_multiple_args: emitting test with extra argument 5
and then with extra argument 0 leaves the button code 5 and then 0. -/
theorem emit_args_witness :
    emit_signal (connect_signal oneButton 0 "test" (.setPropArg "button" 0))
        0 "test" [.integer 5] =
      .ok (setObjData (connect_signal oneButton 0 "test"
        (.setPropArg "button" 0)) 0 ⟨5, []⟩) ∧
    emit_signal (setObjData (connect_signal oneButton 0 "test"
        (.setPropArg "button" 0)) 0 ⟨5, []⟩) 0 "test" [.integer 0] =
      .ok (setObjData (connect_signal oneButton 0 "test"
        (.setPropArg "button" 0)) 0 ⟨0, []⟩) := by
  have he := emit_args oneButton 0 ⟨⟨0, []⟩, [], "button"⟩ "test" 5 0
    rfl rfl rfl rfl
  exact ⟨he.1, he.2.1⟩

end WayCooler
